import Mathlib

/-!
Verification of the voice-command spreadsheet safety pipeline: a shallow
embedding of the dry-run risk simulator (`lib/services/dry-run.service.ts`),
the conversation state machine (`lib/services/state-machine.service.ts`),
the rollback/undo store (`lib/services/rollback.service.ts`), the Google
Sheets backend call surface (`lib/services/google-sheets.service.ts`) and
the relevant API route dispatch logic (`app/api/sheets/dry-run/route.ts`,
`app/api/sheets/execute/route.ts`, `app/api/conversation/state/route.ts`),
together with proofs of the behavioural properties stated in the design
specification.

JavaScript `number` values are modelled as `Int` / `Nat` (no fractional or
NaN behaviour is relied on by any proved property; the classifier confidence,
compared against `0.6`, is modelled as `Rat`).  JavaScript `undefined`-able
fields are modelled as `Option`; a `switch` on an action string is modelled
as an `if`/`else` chain on string equality, matching the source's semantics
(the shared `case` fall-throughs become disjunctions).  Thrown exceptions
are modelled with `Except String`.
-/

namespace VoiceSheets

/-- Risk classification of a dry-run report (`'low' | 'medium' | 'high'`). -/
inductive Risk
  | low
  | medium
  | high
deriving DecidableEq, Repr

/-- Cell format object as inspected by `describeFormat`; the JS code only
tests truthiness of each attribute, so colour objects are modelled by their
presence. -/
structure CellFormat where
  bold : Bool := false
  italic : Bool := false
  underline : Bool := false
  textColor : Bool := false
  backgroundColor : Bool := false
  fontSize : Option Nat := none
  numberFormat : Bool := false
deriving DecidableEq, Repr

/-- The parameter record passed to `simulate` (`Record<string, any>` in the
source).  Fields that a simulator branch dereferences in a way that throws
on `undefined` (`values.reduce`, `format.bold`, `chartType.toLowerCase()`)
are `Option`; numeric fields that the source only uses in arithmetic or
string interpolation (where `undefined` silently yields `NaN` text and no
exception) are plain `Int`/`Nat`.  `sheetIdNum` models the numeric
`parameters.sheetId` used by the rollback payloads. -/
structure SimParams where
  title : Option String := none
  sheetNames : Option (List String) := none
  range : Option String := none
  values : Option (List (List String)) := none
  sheetName : Option String := none
  format : Option CellFormat := none
  startIndex : Int := 0
  count : Option Nat := none
  columnIndex : Int := 0
  ascending : Bool := true
  rowCount : Option Nat := none
  columnCount : Option Nat := none
  chartType : Option String := none
  formula : Option String := none
  txType : Option String := none
  amount : Option Int := none
  sheetIdNum : Option Int := none
deriving DecidableEq, Repr

/-- Dry-run report (`DryRunResult` in the source); `estimated_impact` is
flattened into the three `impact_*` fields. -/
structure DryRunResult where
  cells_affected : List String
  rows_affected : Option (List Int) := none
  columns_affected : Option (List String) := none
  risk_level : Risk
  reversible : Bool
  preview : String
  warnings : Option (List String) := none
  impact_cells : Nat
  impact_rows : Option Nat := none
  impact_columns : Option Nat := none
deriving DecidableEq, Repr

/-- Rendering of a possibly-`undefined` string into a template literal
(JS interpolates `undefined` as the text `undefined`). -/
def jsStr : Option String → String
  | some s => s
  | none => "undefined"

/-- `expandRange`: the source's simplified implementation returns the range
itself as a one-element list. -/
def expandRange (range : String) : List String :=
  [range]

/-- `countCellsInRange`: `values.reduce((sum, row) => sum + row.length, 0)`. -/
def countCellsInRange (values : List (List String)) : Nat :=
  values.foldl (fun sum row => sum + row.length) 0

/-- Loop body of `indexToColumn`: `while (temp >= 0) { column =
fromCharCode(temp % 26 + 65) + column; temp = floor(temp / 26) - 1 }`. -/
def indexToColumnGo (temp : Int) (acc : String) : String :=
  if h : 0 ≤ temp then
    indexToColumnGo (temp / 26 - 1)
      (String.mk [Char.ofNat ((temp % 26).toNat + 65)] ++ acc)
  else acc
termination_by (temp + 1).toNat
decreasing_by
  have h26 : temp / 26 ≤ temp := Int.ediv_le_self 26 h
  omega

/-- `indexToColumn`: converts a 0-based column index to a letter label. -/
def indexToColumn (index : Int) : String :=
  indexToColumnGo index ""

/-- `describeFormat`: human-readable description of a format object. -/
def describeFormat (format : CellFormat) : String :=
  let parts : List String :=
    (if format.bold then ["bold"] else []) ++
    (if format.italic then ["italic"] else []) ++
    (if format.underline then ["underline"] else []) ++
    (if format.textColor then ["text color"] else []) ++
    (if format.backgroundColor then ["background color"] else []) ++
    (match format.fontSize with
      | some n => ["font size " ++ toString n]
      | none => []) ++
    (if format.numberFormat then ["number format"] else [])
  if parts.length > 0 then String.intercalate ", " parts else "formatting"

/-- `simulateCreateSpreadsheet`. -/
def simulateCreateSpreadsheet (params : SimParams) : Except String DryRunResult :=
  Except.ok
    { cells_affected := []
      risk_level := Risk.low
      reversible := false
      preview := "Will create new spreadsheet \"" ++ jsStr params.title ++ "\"" ++
        (match params.sheetNames with
          | some ns => " with sheets: " ++ String.intercalate ", " ns
          | none => "")
      impact_cells := 0 }

/-- `simulateUpdateCells`; dereferencing `values` throws a `TypeError` when
the parameter is absent. -/
def simulateUpdateCells (params : SimParams) : Except String DryRunResult :=
  match params.values with
  | none => Except.error "TypeError: Cannot read properties of undefined (reading reduce)"
  | some values =>
    let cellCount := countCellsInRange values
    Except.ok
      { cells_affected := expandRange (jsStr params.range)
        risk_level := if cellCount > 100 then Risk.medium else Risk.low
        reversible := true
        preview := "Will update " ++ toString cellCount ++ " cell(s) in range " ++
          (match params.sheetName with
            | some sn => sn ++ "!"
            | none => "") ++ jsStr params.range
        warnings :=
          if cellCount > 100 then
            some ["Large update detected - affects more than 100 cells"]
          else none
        impact_cells := cellCount }

/-- `simulateFormatCells`; `describeFormat` dereferences `format` and throws
when the parameter is absent. -/
def simulateFormatCells (params : SimParams) : Except String DryRunResult :=
  match params.format with
  | none => Except.error "TypeError: Cannot read properties of undefined (reading bold)"
  | some format =>
    let affectedCells := expandRange (jsStr params.range)
    Except.ok
      { cells_affected := affectedCells
        risk_level := Risk.low
        reversible := true
        preview := "Will apply " ++ describeFormat format ++ " to range " ++
          (match params.sheetName with
            | some sn => sn ++ "!"
            | none => "") ++ jsStr params.range
        impact_cells := affectedCells.length }

/-- `simulateInsertRows` (`count = 1` when absent). -/
def simulateInsertRows (params : SimParams) : Except String DryRunResult :=
  let count := params.count.getD 1
  Except.ok
    { cells_affected := []
      rows_affected := some ((List.range count).map (fun i => params.startIndex + i + 1))
      risk_level := if count > 10 then Risk.medium else Risk.low
      reversible := true
      preview := "Will insert " ++ toString count ++ " row(s) starting at row " ++
        toString (params.startIndex + 1)
      warnings := if count > 10 then some ["Inserting more than 10 rows"] else none
      impact_cells := 0
      impact_rows := some count }

/-- `simulateInsertColumns`. -/
def simulateInsertColumns (params : SimParams) : Except String DryRunResult :=
  let count := params.count.getD 1
  Except.ok
    { cells_affected := []
      columns_affected := some ((List.range count).map (fun i => indexToColumn (params.startIndex + i)))
      risk_level := if count > 5 then Risk.medium else Risk.low
      reversible := true
      preview := "Will insert " ++ toString count ++ " column(s) starting at column " ++
        indexToColumn params.startIndex
      warnings := if count > 5 then some ["Inserting more than 5 columns"] else none
      impact_cells := 0
      impact_columns := some count }

/-- `simulateDeleteRows`: deletion is always high risk. -/
def simulateDeleteRows (params : SimParams) : Except String DryRunResult :=
  let count := params.count.getD 1
  Except.ok
    { cells_affected := []
      rows_affected := some ((List.range count).map (fun i => params.startIndex + i + 1))
      risk_level := Risk.high
      reversible := true
      preview := "⚠️  Will DELETE " ++ toString count ++ " row(s) starting at row " ++
        toString (params.startIndex + 1) ++ ". This action removes data."
      warnings := some ["This is a destructive action", "All data in these rows will be removed"]
      impact_cells := 0
      impact_rows := some count }

/-- `simulateDeleteColumns`. -/
def simulateDeleteColumns (params : SimParams) : Except String DryRunResult :=
  let count := params.count.getD 1
  Except.ok
    { cells_affected := []
      risk_level := Risk.high
      reversible := true
      preview := "⚠️  Will DELETE " ++ toString count ++ " column(s) starting at column " ++
        indexToColumn params.startIndex ++ ". This action removes data."
      warnings := some ["This is a destructive action", "All data in these columns will be removed"]
      impact_cells := 0
      impact_columns := some count }

/-- `simulateClearRange`. -/
def simulateClearRange (params : SimParams) : Except String DryRunResult :=
  let affectedCells := expandRange (jsStr params.range)
  Except.ok
    { cells_affected := affectedCells
      risk_level := Risk.high
      reversible := true
      preview := "⚠️  Will CLEAR " ++ toString affectedCells.length ++ " cell(s) in range " ++
        (match params.sheetName with
          | some sn => sn ++ "!"
          | none => "") ++ jsStr params.range ++ ". All content will be removed."
      warnings := some ["This is a destructive action", "Cell contents will be permanently cleared"]
      impact_cells := affectedCells.length }

/-- `simulateSortData`: sorting is not reversible. -/
def simulateSortData (params : SimParams) : Except String DryRunResult :=
  Except.ok
    { cells_affected := expandRange (jsStr params.range)
      risk_level := Risk.medium
      reversible := false
      preview := "Will sort data by column " ++ indexToColumn params.columnIndex ++
        " in " ++ (if params.ascending then "ascending" else "descending") ++ " order"
      warnings := some ["Sorting changes the order of rows", "This action cannot be easily undone"]
      impact_cells := (expandRange (jsStr params.range)).length }

/-- `simulateMergeCells`. -/
def simulateMergeCells (params : SimParams) : Except String DryRunResult :=
  Except.ok
    { cells_affected := expandRange (jsStr params.range)
      risk_level := Risk.low
      reversible := true
      preview := "Will merge cells in range " ++ jsStr params.range
      impact_cells := (expandRange (jsStr params.range)).length }

/-- `simulateAppendTransaction` (fixed 5-cell / 1-row estimate). -/
def simulateAppendTransaction (params : SimParams) : Except String DryRunResult :=
  let amount := params.amount.getD 0
  Except.ok
    { cells_affected := []
      risk_level := Risk.low
      reversible := true
      preview := "Will append a " ++ (params.txType.getD "transaction") ++ " entry (" ++
        toString amount ++ ") to " ++ (params.sheetName.getD "the active sheet")
      impact_cells := 5
      impact_rows := some 1 }

/-- `simulateCreateTallySheet`. -/
def simulateCreateTallySheet (params : SimParams) : Except String DryRunResult :=
  Except.ok
    { cells_affected := ["A1", "B1", "C1", "D1", "E1"]
      risk_level := Risk.low
      reversible := false
      preview := "Will create a new tally spreadsheet \"" ++
        (params.title.getD "Business Tally Sheet") ++
        "\" with columns Date, Type, Category, Description, Amount"
      impact_cells := 5
      impact_rows := some 1
      impact_columns := some 5 }

/-- `simulateFreezeRows` (also used for `freeze_columns`). -/
def simulateFreezeRows (params : SimParams) : Except String DryRunResult :=
  Except.ok
    { cells_affected := []
      risk_level := Risk.low
      reversible := true
      preview := "Will freeze " ++ toString (params.rowCount.getD 0) ++ " row(s) and " ++
        toString (params.columnCount.getD 0) ++ " column(s)"
      impact_cells := 0 }

/-- `simulateCreateChart`; `chartType.toLowerCase()` throws when the
parameter is absent. -/
def simulateCreateChart (params : SimParams) : Except String DryRunResult :=
  match params.chartType with
  | none => Except.error "TypeError: Cannot read properties of undefined (reading toLowerCase)"
  | some chartType =>
    Except.ok
      { cells_affected := []
        risk_level := Risk.low
        reversible := true
        preview := "Will create a " ++ chartType.toLower ++ " chart"
        impact_cells := 0 }

/-- `simulateApplyFormula`. -/
def simulateApplyFormula (params : SimParams) : Except String DryRunResult :=
  let affectedCells := expandRange (jsStr params.range)
  Except.ok
    { cells_affected := affectedCells
      risk_level := Risk.low
      reversible := true
      preview := "Will apply formula \"" ++ jsStr params.formula ++ "\" to " ++
        toString affectedCells.length ++ " cell(s)"
      impact_cells := affectedCells.length }

/-- The `switch (action)` dispatch of `DryRunService.simulate`; shared
`case` labels become disjunctions, the `default` arm throws. -/
def simulateInner (action : String) (params : SimParams) : Except String DryRunResult :=
  if action = "create_spreadsheet" then simulateCreateSpreadsheet params
  else if action = "update_cell" ∨ action = "update_range" then simulateUpdateCells params
  else if action = "format_cells" then simulateFormatCells params
  else if action = "insert_row" then simulateInsertRows params
  else if action = "insert_column" then simulateInsertColumns params
  else if action = "delete_row" then simulateDeleteRows params
  else if action = "delete_column" then simulateDeleteColumns params
  else if action = "clear_range" then simulateClearRange params
  else if action = "sort_data" then simulateSortData params
  else if action = "merge_cells" then simulateMergeCells params
  else if action = "freeze_rows" ∨ action = "freeze_columns" then simulateFreezeRows params
  else if action = "create_chart" then simulateCreateChart params
  else if action = "apply_formula" then simulateApplyFormula params
  else if action = "append_transaction" then simulateAppendTransaction params
  else if action = "create_tally_sheet" then simulateCreateTallySheet params
  else Except.error ("Unsupported action for dry-run: " ++ action)

/-- `DryRunService.simulate`: the outer `catch` re-wraps every failure. -/
def simulate (action : String) (params : SimParams) : Except String DryRunResult :=
  match simulateInner action params with
  | Except.ok r => Except.ok r
  | Except.error e => Except.error ("Dry-run failed: " ++ e)

/-- The action kinds handled by the `switch` in `simulate` (the supported
set of the dry-run contract). -/
def supportedActions : List String :=
  ["create_spreadsheet", "update_cell", "update_range", "format_cells",
   "insert_row", "insert_column", "delete_row", "delete_column",
   "clear_range", "sort_data", "merge_cells", "freeze_rows",
   "freeze_columns", "create_chart", "apply_formula",
   "append_transaction", "create_tally_sheet"]

/-- The ten conversation states of the safety pipeline. -/
inductive ConversationState
  | IDLE
  | LISTENING
  | TRANSCRIBING
  | INTENT_CLASSIFIED
  | CLARIFICATION_REQUIRED
  | CONFIRMATION_REQUIRED
  | READY_TO_EXECUTE
  | EXECUTING
  | COMPLETED
  | ERROR
deriving DecidableEq, Repr

/-- Display name of a state, as interpolated into log/error messages. -/
def stateName : ConversationState → String
  | ConversationState.IDLE => "IDLE"
  | ConversationState.LISTENING => "LISTENING"
  | ConversationState.TRANSCRIBING => "TRANSCRIBING"
  | ConversationState.INTENT_CLASSIFIED => "INTENT_CLASSIFIED"
  | ConversationState.CLARIFICATION_REQUIRED => "CLARIFICATION_REQUIRED"
  | ConversationState.CONFIRMATION_REQUIRED => "CONFIRMATION_REQUIRED"
  | ConversationState.READY_TO_EXECUTE => "READY_TO_EXECUTE"
  | ConversationState.EXECUTING => "EXECUTING"
  | ConversationState.COMPLETED => "COMPLETED"
  | ConversationState.ERROR => "ERROR"

/-- The fixed transition table `VALID_TRANSITIONS` of
`StateMachineService`. -/
def VALID_TRANSITIONS : ConversationState → List ConversationState
  | ConversationState.IDLE => [ConversationState.LISTENING]
  | ConversationState.LISTENING =>
      [ConversationState.TRANSCRIBING, ConversationState.IDLE, ConversationState.ERROR]
  | ConversationState.TRANSCRIBING =>
      [ConversationState.INTENT_CLASSIFIED, ConversationState.ERROR]
  | ConversationState.INTENT_CLASSIFIED =>
      [ConversationState.CLARIFICATION_REQUIRED, ConversationState.CONFIRMATION_REQUIRED,
       ConversationState.READY_TO_EXECUTE, ConversationState.ERROR]
  | ConversationState.CLARIFICATION_REQUIRED =>
      [ConversationState.LISTENING, ConversationState.IDLE]
  | ConversationState.CONFIRMATION_REQUIRED =>
      [ConversationState.READY_TO_EXECUTE, ConversationState.IDLE, ConversationState.ERROR]
  | ConversationState.READY_TO_EXECUTE =>
      [ConversationState.EXECUTING, ConversationState.ERROR]
  | ConversationState.EXECUTING =>
      [ConversationState.COMPLETED, ConversationState.ERROR]
  | ConversationState.COMPLETED => [ConversationState.IDLE]
  | ConversationState.ERROR => [ConversationState.IDLE, ConversationState.LISTENING]

/-- `StateMachineService.isValidTransition`: membership of the target state
in the table row of the current state. -/
def isValidTransition (fromState toState : ConversationState) : Bool :=
  decide (toState ∈ VALID_TRANSITIONS fromState)

/-- A persisted conversation row: identifier, current state and the
`updatedAt` timestamp (abstract time in minutes) consulted by the staleness
sweep. -/
structure Conversation where
  id : String
  state : ConversationState
  updatedAt : Nat
deriving DecidableEq, Repr

/-- Result shape returned by `transitionState`. -/
structure TransitionResult where
  success : Bool
  currentState : ConversationState
  message : Option String := none
deriving DecidableEq, Repr

/-- `StateMachineService.transitionState` over an explicit conversation
store: loads the current state; when the requested transition is not in the
table it returns `success:false` with the (unchanged) current state and an
invalid-transition message, updating nothing; otherwise it persists the new
state.  A missing conversation becomes the caught-and-rethrown failure. -/
def transitionState (store : List Conversation) (conversationId : String)
    (newState : ConversationState) :
    Except String (TransitionResult × List Conversation) :=
  match store.find? (fun c => c.id == conversationId) with
  | none => Except.error "Failed to transition state"
  | some conversation =>
    let currentState := conversation.state
    if isValidTransition currentState newState then
      Except.ok
        ({ success := true, currentState := newState },
         store.map (fun c =>
           if c.id == conversationId then { c with state := newState } else c))
    else
      Except.ok
        ({ success := false
           currentState := currentState
           message := some ("Invalid state transition from " ++ stateName currentState ++
             " to " ++ stateName newState) },
         store)

/-- `StateMachineService.resetToIdle`: writes `IDLE` unconditionally,
without consulting the transition table (used by the
`POST /api/conversation/state` reset endpoint). -/
def resetToIdle (c : Conversation) : Conversation :=
  { c with state := ConversationState.IDLE }

/-- `StateMachineService.handleError`: writes `ERROR` unconditionally,
without consulting the transition table (used by the execute route's error
path). -/
def handleError (c : Conversation) : Conversation :=
  { c with state := ConversationState.ERROR }

/-- `StateMachineService.forceTransition`: administrative bypass that writes
the requested state unconditionally. -/
def forceTransition (c : Conversation) (newState : ConversationState) : Conversation :=
  { c with state := newState }

/-- The `where` filter of `cleanupStuckConversations`:
`state notIn ['IDLE','COMPLETED']` and `updatedAt < cutoffTime`. -/
def stuckFilter (cutoff : Nat) (c : Conversation) : Bool :=
  !(c.state == ConversationState.IDLE) && !(c.state == ConversationState.COMPLETED) &&
    c.updatedAt < cutoff

/-- `StateMachineService.cleanupStuckConversations`: computes
`cutoffTime = now - maxAgeMinutes` and issues one `updateMany` setting
`state = ERROR` on every matching row, returning the updated store and the
number of rows the update touched. -/
def cleanupStuckConversations (store : List Conversation) (now maxAgeMinutes : Nat) :
    List Conversation × Nat :=
  let cutoff := now - maxAgeMinutes
  ((store.map (fun c =>
      if stuckFilter cutoff c then { c with state := ConversationState.ERROR } else c)),
   (store.filter (stuckFilter cutoff)).length)

/-- A structured intent as validated by `sheetActionIntentSchema`
(`confirmationRequired` defaults to `false`, `confidence` to `1`). -/
structure SheetActionIntent where
  action : String
  parameters : SimParams
  confirmationRequired : Bool := false
  clarificationNeeded : Option String := none
  confidence : Rat := 1
deriving DecidableEq, Repr

/-- Result of `IntentParserService.validateIntent`. -/
structure ValidationResult where
  valid : Bool
  message : Option String := none
deriving DecidableEq, Repr

/-- `IntentParserService.validateIntent`: invalid when the classifier
confidence is below `0.6` (with a fallback clarification message) or when
the classifier asked for clarification. -/
def validateIntent (intent : SheetActionIntent) : ValidationResult :=
  if intent.confidence < 3 / 5 then
    { valid := false
      message := some (intent.clarificationNeeded.getD
        "I'm not confident I understood correctly. Could you rephrase that?") }
  else
    match intent.clarificationNeeded with
    | some m => { valid := false, message := some m }
    | none => { valid := true }

/-- The state dispatched by the dry-run route after a successful simulation
when a conversation is attached: `READY_TO_EXECUTE`, overridden to
`CONFIRMATION_REQUIRED` when the report is high-risk or not reversible. -/
def dryRunDispatch (result : DryRunResult) : ConversationState :=
  if result.risk_level = Risk.high ∨ result.reversible = false then
    ConversationState.CONFIRMATION_REQUIRED
  else
    ConversationState.READY_TO_EXECUTE

/-- The `requiresConfirmation` flag of the dry-run route's JSON response:
`result.risk_level === 'high' || !result.reversible`. -/
def dryRunResponseRequiresConfirmation (result : DryRunResult) : Bool :=
  (result.risk_level == Risk.high) || !result.reversible

/-- Modelled from the spec (§4.2 dispatch decision), for comparison with
the code's dispatch: `CLARIFICATION_REQUIRED` below confidence `0.6`, else
`CONFIRMATION_REQUIRED` on the classifier hint or a high-risk or
irreversible report, else `READY_TO_EXECUTE`. -/
def specDryRunDispatch (confidence : Rat) (hint : Bool) (result : DryRunResult) :
    ConversationState :=
  if confidence < 3 / 5 then ConversationState.CLARIFICATION_REQUIRED
  else if hint ∨ result.risk_level = Risk.high ∨ result.reversible = false then
    ConversationState.CONFIRMATION_REQUIRED
  else ConversationState.READY_TO_EXECUTE

/-- Outcome of the execute route with respect to the confirmation gate. -/
inductive ExecuteOutcome
  | requiresConfirmation
  | executed
deriving DecidableEq, Repr

/-- The confirmation gate of `POST /api/sheets/execute`: execution is
short-circuited exactly when `intent.confirmationRequired && !confirmed`;
no other input (in particular no dry-run report) is consulted before the
spreadsheet mutation is dispatched. -/
def executeRoute (intent : SheetActionIntent) (confirmed : Bool) : ExecuteOutcome :=
  if intent.confirmationRequired && !confirmed then ExecuteOutcome.requiresConfirmation
  else ExecuteOutcome.executed

/-- Dimension selector of the Sheets API `insertDimension` /
`deleteDimension` requests. -/
inductive Dimension
  | ROWS
  | COLUMNS
deriving DecidableEq, Repr

/-- The Sheets API request bodies issued by `GoogleSheetsService` (dimension
requests carry their full range; the remaining request kinds are modelled
coarsely, since no claim depends on their payloads). -/
inductive ApiRequest
  | spreadsheetsCreate (title : String)
  | spreadsheetsGet (spreadsheetId : String)
  | valuesUpdate (spreadsheetId range : String) (values : List (List String))
  | valuesGet (spreadsheetId range : String)
  | repeatCellFormat (spreadsheetId range : String)
  | insertDimension (sheetId : Int) (dim : Dimension) (startIndex endIndex : Int)
  | deleteDimension (sheetId : Int) (dim : Dimension) (startIndex endIndex : Int)
  | sortRange (sheetId sortColumnIndex : Int) (ascending : Bool)
  | addChart (sheetId : Int) (chartType : String)
  | updateSheetProperties (sheetId : Int) (frozenRowCount : Nat)
  | mergeCellsRequest (spreadsheetId : String)
deriving DecidableEq, Repr

/-- One invocation of a public method of `GoogleSheetsService` — this is the
complete mutation surface the rest of the code can call (there is no
column-deletion method). -/
inductive SheetsServiceCall
  | createSpreadsheet (title : String) (sheetNames : Option (List String))
  | getSpreadsheet (spreadsheetId : String)
  | updateCells (spreadsheetId range : String) (values : List (List String))
      (sheetName : Option String)
  | getCells (spreadsheetId range : String) (sheetName : Option String)
  | formatCells (spreadsheetId range : String) (format : CellFormat) (sheetId : Int)
  | insertRows (spreadsheetId : String) (sheetId startIndex : Int) (count : Nat)
  | insertColumns (spreadsheetId : String) (sheetId startIndex : Int) (count : Nat)
  | deleteRows (spreadsheetId : String) (sheetId startIndex : Int) (count : Nat)
  | sortData (spreadsheetId : String) (sheetId sortColumnIndex : Int) (ascending : Bool)
  | createChart (spreadsheetId : String) (sheetId : Int) (chartType : String)
  | freezeRows (spreadsheetId : String) (sheetId : Int) (rowCount : Nat)
  | mergeCells (spreadsheetId range : String)
deriving DecidableEq, Repr

/-- Full range as interpolated when a sheet name is present. -/
def fullRange (sheetName : Option String) (range : String) : String :=
  match sheetName with
  | some sn => sn ++ "!" ++ range
  | none => range

/-- The Sheets API requests each `GoogleSheetsService` method issues.
`deleteRows` issues `deleteDimension` with `dimension: 'ROWS'` and
`endIndex = startIndex + count`; `insertRows` / `insertColumns` issue
`insertDimension` with the respective dimension. -/
def callRequests : SheetsServiceCall → List ApiRequest
  | SheetsServiceCall.createSpreadsheet title _ => [ApiRequest.spreadsheetsCreate title]
  | SheetsServiceCall.getSpreadsheet sid => [ApiRequest.spreadsheetsGet sid]
  | SheetsServiceCall.updateCells sid range values sheetName =>
      [ApiRequest.valuesUpdate sid (fullRange sheetName range) values]
  | SheetsServiceCall.getCells sid range sheetName =>
      [ApiRequest.valuesGet sid (fullRange sheetName range)]
  | SheetsServiceCall.formatCells sid range _ _ => [ApiRequest.repeatCellFormat sid range]
  | SheetsServiceCall.insertRows _ sheetId startIndex count =>
      [ApiRequest.insertDimension sheetId Dimension.ROWS startIndex (startIndex + count)]
  | SheetsServiceCall.insertColumns _ sheetId startIndex count =>
      [ApiRequest.insertDimension sheetId Dimension.COLUMNS startIndex (startIndex + count)]
  | SheetsServiceCall.deleteRows _ sheetId startIndex count =>
      [ApiRequest.deleteDimension sheetId Dimension.ROWS startIndex (startIndex + count)]
  | SheetsServiceCall.sortData _ sheetId sortColumnIndex ascending =>
      [ApiRequest.sortRange sheetId sortColumnIndex ascending]
  | SheetsServiceCall.createChart _ sheetId chartType => [ApiRequest.addChart sheetId chartType]
  | SheetsServiceCall.freezeRows _ sheetId rowCount =>
      [ApiRequest.updateSheetProperties sheetId rowCount]
  | SheetsServiceCall.mergeCells sid _ => [ApiRequest.mergeCellsRequest sid]

/-- Whether an API request deletes columns. -/
def isColumnDeletion : ApiRequest → Bool
  | ApiRequest.deleteDimension _ Dimension.COLUMNS _ _ => true
  | _ => false

/-- Pre-mutation data optionally captured before the forward mutation
(`currentData` in `createSnapshot`). -/
structure CurrentData where
  values : Option (List (List String)) := none
  format : Option CellFormat := none
  rowData : Option (List (List String)) := none
  columnData : Option (List (List String)) := none
deriving DecidableEq, Repr

/-- The undo payload persisted with a rollback record (`undoData`).  The
source stores a JSON object whose shape depends on the forward action; the
union of the fields is modelled here, absent fields keeping their
defaults. -/
structure UndoData where
  range : Option String := none
  previousValues : List (List String) := []
  previousFormat : CellFormat := {}
  startIndex : Int := 0
  count : Nat := 1
  deletedData : List (List String) := []
  clearedValues : List (List String) := []
  sheetName : Option String := none
  sheetIdNum : Option Int := none
deriving DecidableEq, Repr

/-- `RollbackService.generateUndoData`: builds the undo payload from the
forward action's parameters and the optional pre-mutation snapshot.  The
`default` arm spreads the raw parameters; no supported undo handler ever
reads that payload, so it is modelled as the default `UndoData`. -/
def generateUndoData (action : String) (parameters : SimParams)
    (currentData : Option CurrentData) : UndoData :=
  if action = "update_cell" ∨ action = "update_range" then
    { range := parameters.range
      previousValues := ((currentData.bind CurrentData.values).getD [[""]])
      sheetName := parameters.sheetName }
  else if action = "format_cells" then
    { range := parameters.range
      previousFormat := ((currentData.bind CurrentData.format).getD {})
      sheetName := parameters.sheetName }
  else if action = "insert_row" then
    { startIndex := parameters.startIndex
      count := parameters.count.getD 1
      sheetIdNum := parameters.sheetIdNum }
  else if action = "insert_column" then
    { startIndex := parameters.startIndex
      count := parameters.count.getD 1
      sheetIdNum := parameters.sheetIdNum }
  else if action = "delete_row" then
    { startIndex := parameters.startIndex
      count := parameters.count.getD 1
      deletedData := ((currentData.bind CurrentData.rowData).getD [])
      sheetIdNum := parameters.sheetIdNum }
  else if action = "delete_column" then
    { startIndex := parameters.startIndex
      count := parameters.count.getD 1
      deletedData := ((currentData.bind CurrentData.columnData).getD [])
      sheetIdNum := parameters.sheetIdNum }
  else if action = "clear_range" then
    { range := parameters.range
      clearedValues := ((currentData.bind CurrentData.values).getD [])
      sheetName := parameters.sheetName }
  else if action = "merge_cells" then
    { range := parameters.range
      sheetIdNum := parameters.sheetIdNum }
  else {}

/-- `RollbackService.getUndoAction`: deterministic map from forward action
kind to undo-action kind, falling back to an `undo_`-prefixed placeholder. -/
def getUndoAction (action : String) : String :=
  if action = "update_cell" then "restore_cell"
  else if action = "update_range" then "restore_range"
  else if action = "format_cells" then "restore_format"
  else if action = "insert_row" then "delete_inserted_row"
  else if action = "insert_column" then "delete_inserted_column"
  else if action = "delete_row" then "restore_deleted_row"
  else if action = "delete_column" then "restore_deleted_column"
  else if action = "clear_range" then "restore_cleared_range"
  else if action = "merge_cells" then "unmerge_cells"
  else "undo_" ++ action

/-- A persisted rollback record (`RollbackAction` row). -/
structure RollbackRecord where
  id : String
  userId : String
  actionId : String
  sheetId : String
  undoAction : String
  undoData : UndoData
  executed : Bool
  expiresAt : Nat
deriving DecidableEq, Repr

/-- The undo validity window (`ROLLBACK_WINDOW_HOURS`), in the abstract
time unit of `expiresAt`. -/
def ROLLBACK_WINDOW_HOURS : Nat := 24

/-- `RollbackService.createSnapshot`: derives the undo action and payload
and persists a fresh, un-executed record expiring `24` hours from now. -/
def createSnapshot (now : Nat) (recId userId actionId sheetId : String)
    (action : String) (parameters : SimParams) (currentData : Option CurrentData) :
    RollbackRecord :=
  { id := recId
    userId := userId
    actionId := actionId
    sheetId := sheetId
    undoAction := getUndoAction action
    undoData := generateUndoData action parameters currentData
    executed := false
    expiresAt := now + ROLLBACK_WINDOW_HOURS }

/-- `RollbackService.performUndo`: dispatches the undo-action kind to the
spreadsheet backend, returning the list of backend calls issued.  Note that
the `delete_inserted_column` arm calls `sheetsService.deleteRows`, exactly
as the `delete_inserted_row` arm does.  The not-yet-implemented branches
(row-content restoration, unmerge) only log a warning. -/
def performUndo (rollback : RollbackRecord) : Except String (List SheetsServiceCall) :=
  let undoData := rollback.undoData
  if rollback.undoAction = "restore_cell" ∨ rollback.undoAction = "restore_range" then
    Except.ok [SheetsServiceCall.updateCells rollback.sheetId (jsStr undoData.range)
      undoData.previousValues undoData.sheetName]
  else if rollback.undoAction = "restore_format" then
    Except.ok [SheetsServiceCall.formatCells rollback.sheetId (jsStr undoData.range)
      undoData.previousFormat (undoData.sheetIdNum.getD 0)]
  else if rollback.undoAction = "delete_inserted_row" then
    Except.ok [SheetsServiceCall.deleteRows rollback.sheetId (undoData.sheetIdNum.getD 0)
      undoData.startIndex undoData.count]
  else if rollback.undoAction = "delete_inserted_column" then
    Except.ok [SheetsServiceCall.deleteRows rollback.sheetId (undoData.sheetIdNum.getD 0)
      undoData.startIndex undoData.count]
  else if rollback.undoAction = "restore_deleted_row" then
    Except.ok [SheetsServiceCall.insertRows rollback.sheetId (undoData.sheetIdNum.getD 0)
      undoData.startIndex undoData.count]
  else if rollback.undoAction = "restore_cleared_range" then
    Except.ok
      (if undoData.clearedValues.length > 0 then
        [SheetsServiceCall.updateCells rollback.sheetId (jsStr undoData.range)
          undoData.clearedValues undoData.sheetName]
      else [])
  else if rollback.undoAction = "unmerge_cells" then
    Except.ok []
  else
    Except.error ("Unsupported undo action: " ++ rollback.undoAction)

/-- The `findFirst` predicate of `executeUndo`: the record with the given
id, owned by the user, not yet executed. -/
def undoLookup (userId rollbackId : String) (r : RollbackRecord) : Bool :=
  r.id == rollbackId && r.userId == userId && !r.executed

/-- `RollbackService.executeUndo` over an explicit record store: fails
(wrapped as `Undo failed: …`) with not-found/already-executed when the
lookup misses, with the expiry message when `now > expiresAt`, and with the
handler's error when the undo-action kind is unsupported; otherwise issues
the backend calls and marks the record executed. -/
def executeUndo (now : Nat) (store : List RollbackRecord) (userId rollbackId : String) :
    Except String (List RollbackRecord × List SheetsServiceCall × String) :=
  match store.find? (undoLookup userId rollbackId) with
  | none => Except.error "Undo failed: Rollback action not found or already executed"
  | some rollback =>
    if rollback.expiresAt < now then
      Except.error ("Undo failed: Undo window expired. Actions can only be undone within " ++
        toString ROLLBACK_WINDOW_HOURS ++ " hours")
    else
      match performUndo rollback with
      | Except.error e => Except.error ("Undo failed: " ++ e)
      | Except.ok calls =>
        Except.ok
          (store.map (fun r => if r.id == rollbackId then { r with executed := true } else r),
           calls,
           "Successfully undid action: " ++ rollback.undoAction)

/-- C6: for every parameter set, `simulate` classifies `delete_row`,
`delete_column` and `clear_range` with `risk_level = high` and
`reversible = true`, and classifies `sort_data` with `reversible = false`. -/
theorem destructive_actions_always_high_risk (p : SimParams) :
    ((simulate "delete_row" p).toOption.map DryRunResult.risk_level = some Risk.high ∧
     (simulate "delete_row" p).toOption.map DryRunResult.reversible = some true) ∧
    ((simulate "delete_column" p).toOption.map DryRunResult.risk_level = some Risk.high ∧
     (simulate "delete_column" p).toOption.map DryRunResult.reversible = some true) ∧
    ((simulate "clear_range" p).toOption.map DryRunResult.risk_level = some Risk.high ∧
     (simulate "clear_range" p).toOption.map DryRunResult.reversible = some true) ∧
    (simulate "sort_data" p).toOption.map DryRunResult.reversible = some false := by
  refine ⟨⟨rfl, rfl⟩, ⟨rfl, rfl⟩, ⟨rfl, rfl⟩, rfl⟩

/-- C7: `update_cell` / `update_range` are `medium` risk exactly when the
total cell count exceeds `100` (otherwise `low`), `insert_row` exactly when
the row count exceeds `10`, and `insert_column` exactly when the column
count exceeds `5`; the boundary counts themselves are `low`. -/
theorem size_threshold_risk_classification (p : SimParams) (vs : List (List String)) :
    ((simulate "update_cell" { p with values := some vs }).toOption.map DryRunResult.risk_level
       = some (if countCellsInRange vs > 100 then Risk.medium else Risk.low)) ∧
    ((simulate "update_range" { p with values := some vs }).toOption.map DryRunResult.risk_level
       = some (if countCellsInRange vs > 100 then Risk.medium else Risk.low)) ∧
    ((simulate "insert_row" p).toOption.map DryRunResult.risk_level
       = some (if p.count.getD 1 > 10 then Risk.medium else Risk.low)) ∧
    ((simulate "insert_column" p).toOption.map DryRunResult.risk_level
       = some (if p.count.getD 1 > 5 then Risk.medium else Risk.low)) := by
  refine ⟨rfl, rfl, rfl, rfl⟩

/-- C4: when the requested target state is not in the transition table's
row for the conversation's current state, `transitionState` returns
`success:false` together with the unchanged current state and an
invalid-transition message, and leaves the store exactly as it was. -/
theorem invalid_transition_is_rejected_without_mutation (store : List Conversation)
    (conversationId : String) (newState : ConversationState) (conversation : Conversation)
    (hfind : store.find? (fun c => c.id == conversationId) = some conversation)
    (hinv : isValidTransition conversation.state newState = false) :
    transitionState store conversationId newState =
      Except.ok
        ({ success := false
           currentState := conversation.state
           message := some ("Invalid state transition from " ++ stateName conversation.state ++
             " to " ++ stateName newState) }, store) := by
  unfold transitionState
  rw [hfind]
  simp [hinv]

/-- Witness for C4 at a concrete store: `IDLE → EXECUTING` is not allowed,
so the request is rejected and the store is untouched. -/
theorem invalid_transition_is_rejected_without_mutation_witness :
    transitionState [⟨"c1", ConversationState.IDLE, 0⟩] "c1" ConversationState.EXECUTING =
      Except.ok
        ({ success := false
           currentState := ConversationState.IDLE
           message := some "Invalid state transition from IDLE to EXECUTING" },
         [⟨"c1", ConversationState.IDLE, 0⟩]) :=
  invalid_transition_is_rejected_without_mutation
    [⟨"c1", ConversationState.IDLE, 0⟩] "c1" ConversationState.EXECUTING
    ⟨"c1", ConversationState.IDLE, 0⟩ (by decide) (by decide)

/-- Failure of `simulate` is failure of the inner `switch` (the outer
`catch` only re-wraps the message). -/
theorem simulate_error_iff (action : String) (p : SimParams) :
    (∃ e, simulate action p = Except.error e) ↔
      (∃ e, simulateInner action p = Except.error e) := by
  cases h : simulateInner action p <;> simp [simulate, h]

/-- C9 counterexample: `update_cell` is in the supported set, yet
`simulate` fails on it when the `values` parameter is absent — so
`simulate` does not fail *only* for unsupported action kinds. -/
theorem simulate_fails_on_supported_action :
    "update_cell" ∈ supportedActions ∧
    simulate "update_cell" ({} : SimParams) =
      Except.error
        "Dry-run failed: TypeError: Cannot read properties of undefined (reading reduce)" :=
  ⟨by decide, rfl⟩

/-- `simulateUpdateCells` fails exactly when `values` is absent. -/
theorem simulateUpdateCells_error_iff (p : SimParams) :
    (∃ e, simulateUpdateCells p = Except.error e) ↔ p.values = none := by
  cases hv : p.values <;> simp only [simulateUpdateCells, hv] <;> simp

/-- `simulateFormatCells` fails exactly when `format` is absent. -/
theorem simulateFormatCells_error_iff (p : SimParams) :
    (∃ e, simulateFormatCells p = Except.error e) ↔ p.format = none := by
  cases hf : p.format <;> simp only [simulateFormatCells, hf] <;> simp

/-- `simulateCreateChart` fails exactly when `chartType` is absent. -/
theorem simulateCreateChart_error_iff (p : SimParams) :
    (∃ e, simulateCreateChart p = Except.error e) ↔ p.chartType = none := by
  cases hc : p.chartType <;> simp only [simulateCreateChart, hc] <;> simp

/-- C9 amended: `simulate` fails exactly when the action kind is outside
the supported set, or when a supported branch dereferences a missing
parameter: `update_cell`/`update_range` without `values`, `format_cells`
without `format`, `create_chart` without `chartType`.  All other supported
calls return a report. -/
theorem simulate_failure_characterization (action : String) (p : SimParams) :
    (∃ e, simulate action p = Except.error e) ↔
      (action ∉ supportedActions ∨
       ((action = "update_cell" ∨ action = "update_range") ∧ p.values = none) ∨
       (action = "format_cells" ∧ p.format = none) ∨
       (action = "create_chart" ∧ p.chartType = none)) := by
  rw [simulate_error_iff]
  by_cases c₁ : action = "create_spreadsheet"
  · subst c₁
    have hb : simulateInner "create_spreadsheet" p = simulateCreateSpreadsheet p := rfl
    rw [hb]
    simp [simulateCreateSpreadsheet, supportedActions]
  by_cases c₂ : action = "update_cell" ∨ action = "update_range"
  · have hb : simulateInner action p = simulateUpdateCells p := by
      rcases c₂ with rfl | rfl <;> rfl
    rw [hb, simulateUpdateCells_error_iff]
    rcases c₂ with rfl | rfl <;> simp [supportedActions]
  by_cases c₃ : action = "format_cells"
  · subst c₃
    have hb : simulateInner "format_cells" p = simulateFormatCells p := rfl
    rw [hb, simulateFormatCells_error_iff]
    simp [supportedActions]
  by_cases c₄ : action = "insert_row"
  · subst c₄
    have hb : simulateInner "insert_row" p = simulateInsertRows p := rfl
    rw [hb]
    simp [simulateInsertRows, supportedActions]
  by_cases c₅ : action = "insert_column"
  · subst c₅
    have hb : simulateInner "insert_column" p = simulateInsertColumns p := rfl
    rw [hb]
    simp [simulateInsertColumns, supportedActions]
  by_cases c₆ : action = "delete_row"
  · subst c₆
    have hb : simulateInner "delete_row" p = simulateDeleteRows p := rfl
    rw [hb]
    simp [simulateDeleteRows, supportedActions]
  by_cases c₇ : action = "delete_column"
  · subst c₇
    have hb : simulateInner "delete_column" p = simulateDeleteColumns p := rfl
    rw [hb]
    simp [simulateDeleteColumns, supportedActions]
  by_cases c₈ : action = "clear_range"
  · subst c₈
    have hb : simulateInner "clear_range" p = simulateClearRange p := rfl
    rw [hb]
    simp [simulateClearRange, supportedActions]
  by_cases c₉ : action = "sort_data"
  · subst c₉
    have hb : simulateInner "sort_data" p = simulateSortData p := rfl
    rw [hb]
    simp [simulateSortData, supportedActions]
  by_cases c₁₀ : action = "merge_cells"
  · subst c₁₀
    have hb : simulateInner "merge_cells" p = simulateMergeCells p := rfl
    rw [hb]
    simp [simulateMergeCells, supportedActions]
  by_cases c₁₁ : action = "freeze_rows" ∨ action = "freeze_columns"
  · have hb : simulateInner action p = simulateFreezeRows p := by
      rcases c₁₁ with rfl | rfl <;> rfl
    rw [hb]
    rcases c₁₁ with rfl | rfl <;> simp [simulateFreezeRows, supportedActions]
  by_cases c₁₂ : action = "create_chart"
  · subst c₁₂
    have hb : simulateInner "create_chart" p = simulateCreateChart p := rfl
    rw [hb, simulateCreateChart_error_iff]
    simp [supportedActions]
  by_cases c₁₃ : action = "apply_formula"
  · subst c₁₃
    have hb : simulateInner "apply_formula" p = simulateApplyFormula p := rfl
    rw [hb]
    simp [simulateApplyFormula, supportedActions]
  by_cases c₁₄ : action = "append_transaction"
  · subst c₁₄
    have hb : simulateInner "append_transaction" p = simulateAppendTransaction p := rfl
    rw [hb]
    simp [simulateAppendTransaction, supportedActions]
  by_cases c₁₅ : action = "create_tally_sheet"
  · subst c₁₅
    have hb : simulateInner "create_tally_sheet" p = simulateCreateTallySheet p := rfl
    rw [hb]
    simp [simulateCreateTallySheet, supportedActions]
  · have hb : simulateInner action p =
        Except.error ("Unsupported action for dry-run: " ++ action) := by
      unfold simulateInner
      rw [if_neg c₁, if_neg c₂, if_neg c₃, if_neg c₄, if_neg c₅, if_neg c₆, if_neg c₇,
        if_neg c₈, if_neg c₉, if_neg c₁₀, if_neg c₁₁, if_neg c₁₂, if_neg c₁₃, if_neg c₁₄,
        if_neg c₁₅]
    rw [hb]
    have hmem : action ∉ supportedActions := by
      simp only [supportedActions, List.mem_cons, List.not_mem_nil, or_false]
      push_neg
      tauto
    simp [hmem]

/-- A `delete_row` intent whose classifier hint says no confirmation is
needed. -/
def riskyUnflaggedIntent : SheetActionIntent :=
  { action := "delete_row"
    parameters := { startIndex := 0, count := some 1 }
    confirmationRequired := false
    confidence := 9 / 10 }

/-- C1 counterexample: the dry-run report for this `delete_row` intent is
high-risk, the classifier hint is `false`, and the execute route performs
the mutation without any confirmation flag — the simulator's judgment does
not reach the execute-time gate. -/
theorem execute_gate_not_refused_on_high_risk_report :
    (simulate riskyUnflaggedIntent.action riskyUnflaggedIntent.parameters).toOption.map
        DryRunResult.risk_level = some Risk.high ∧
    riskyUnflaggedIntent.confirmationRequired = false ∧
    executeRoute riskyUnflaggedIntent false = ExecuteOutcome.executed :=
  ⟨rfl, rfl, rfl⟩

/-- C1 amended: the execute route refuses exactly when the intent's own
`confirmationRequired` hint is set and no `confirmed` flag was passed; the
gate depends on nothing else (in particular not on the dry-run report).
The simulator's judgment surfaces only in the dry-run response's
`requiresConfirmation` flag, which is `risk = high ∨ ¬reversible`. -/
theorem execute_gate_matches_classifier_hint_only (intent : SheetActionIntent)
    (confirmed : Bool) :
    (executeRoute intent confirmed = ExecuteOutcome.requiresConfirmation ↔
      (intent.confirmationRequired = true ∧ confirmed = false)) ∧
    (∀ intent₂ : SheetActionIntent,
      intent₂.confirmationRequired = intent.confirmationRequired →
      executeRoute intent₂ confirmed = executeRoute intent confirmed) ∧
    (∀ result : DryRunResult,
      dryRunResponseRequiresConfirmation result = true ↔
        (result.risk_level = Risk.high ∨ result.reversible = false)) := by
  refine ⟨?_, ?_, ?_⟩
  · unfold executeRoute
    cases hc : intent.confirmationRequired <;> cases confirmed <;> simp
  · intro intent₂ h
    unfold executeRoute
    rw [h]
  · intro result
    unfold dryRunResponseRequiresConfirmation
    cases hr : result.risk_level <;> cases hrev : result.reversible <;> simp

/-- Witness for C1 amended: a low-risk `update_cell` intent and the
high-risk `delete_row` intent with the same (false) hint behave identically
at the gate. -/
theorem execute_gate_matches_classifier_hint_only_witness :
    executeRoute { action := "update_cell", parameters := {} } false =
      executeRoute riskyUnflaggedIntent false :=
  (execute_gate_matches_classifier_hint_only riskyUnflaggedIntent false).2.1
    { action := "update_cell", parameters := {} } rfl

/-- C2 counterexample: on a low-risk, reversible report (`merge_cells`) with
classifier confidence `0.4`, the dry-run route dispatches
`READY_TO_EXECUTE`, while the claimed dispatch rule would require
`CLARIFICATION_REQUIRED`. -/
theorem dry_run_dispatch_ignores_confidence :
    (simulate "merge_cells" { range := some "A1:B2" }).toOption.map dryRunDispatch =
      some ConversationState.READY_TO_EXECUTE ∧
    (simulate "merge_cells" { range := some "A1:B2" }).toOption.map
        (fun r => specDryRunDispatch (2 / 5) false r) =
      some ConversationState.CLARIFICATION_REQUIRED := by
  have hsim : simulate "merge_cells" ({ range := some "A1:B2" } : SimParams) = Except.ok
      { cells_affected := ["A1:B2"], risk_level := Risk.low, reversible := true,
        preview := "Will merge cells in range A1:B2", impact_cells := 1 } := rfl
  have h : ((2 : Rat) / 5) < 3 / 5 := by norm_num
  rw [hsim]
  constructor
  · rfl
  · rw [Except.toOption, Option.map]
    unfold specDryRunDispatch
    rw [if_pos h]

/-- C2 amended: the state dispatched by the dry-run route is
`CONFIRMATION_REQUIRED` exactly when the simulator reports high risk or
not-reversible, and `READY_TO_EXECUTE` otherwise; it never dispatches
`CLARIFICATION_REQUIRED` and consults neither the classifier confidence nor
its `confirmationRequired` hint.  The `confidence < 0.6` check lives in
`validateIntent` (used by the parse endpoint before any dry-run), which
reports the intent as invalid rather than dispatching a state. -/
theorem dry_run_dispatch_characterization (result : DryRunResult)
    (intent : SheetActionIntent) :
    (dryRunDispatch result = ConversationState.CONFIRMATION_REQUIRED ↔
      (result.risk_level = Risk.high ∨ result.reversible = false)) ∧
    (dryRunDispatch result = ConversationState.READY_TO_EXECUTE ↔
      ¬(result.risk_level = Risk.high ∨ result.reversible = false)) ∧
    dryRunDispatch result ≠ ConversationState.CLARIFICATION_REQUIRED ∧
    (intent.confidence < 3 / 5 → (validateIntent intent).valid = false) := by
  refine ⟨?_, ?_, ?_, ?_⟩
  · unfold dryRunDispatch
    by_cases h : result.risk_level = Risk.high ∨ result.reversible = false <;> simp [h]
  · unfold dryRunDispatch
    by_cases h : result.risk_level = Risk.high ∨ result.reversible = false <;> simp [h]
  · unfold dryRunDispatch
    by_cases h : result.risk_level = Risk.high ∨ result.reversible = false <;> simp [h]
  · intro h
    simp [validateIntent, h]

/-- An intent classified with confidence `0.4`. -/
def lowConfidenceIntent : SheetActionIntent :=
  { action := "update_cell", parameters := {}, confidence := 2 / 5 }

/-- A low-risk reversible report, as returned for a 1-cell merge. -/
def lowRiskReport : DryRunResult :=
  { cells_affected := ["A1"]
    risk_level := Risk.low
    reversible := true
    preview := "Will merge cells in range A1"
    impact_cells := 1 }

/-- Witness for C2 amended: confidence `0.4` is reported invalid by
`validateIntent`. -/
theorem dry_run_dispatch_characterization_witness :
    (validateIntent lowConfidenceIntent).valid = false :=
  (dry_run_dispatch_characterization lowRiskReport lowConfidenceIntent).2.2.2
    (by norm_num [lowConfidenceIntent])

/-- C3: a rollback record created from a forward `insert_column` action
carries undo kind `delete_inserted_column`, and executing that undo calls
the backend's `deleteRows` — which issues `deleteDimension` with dimension
`ROWS` at the stored `startIndex`/`count` — so undoing a column insertion
deletes rows; moreover no method of the backend service ever issues a
column-deletion request. -/
theorem insert_column_undo_deletes_rows (now : Nat)
    (recId userId actionId sheetId : String) (p : SimParams)
    (currentData : Option CurrentData) :
    (createSnapshot now recId userId actionId sheetId "insert_column" p
        currentData).undoAction = "delete_inserted_column" ∧
    performUndo (createSnapshot now recId userId actionId sheetId "insert_column" p
        currentData) =
      Except.ok [SheetsServiceCall.deleteRows sheetId (p.sheetIdNum.getD 0) p.startIndex
        (p.count.getD 1)] ∧
    callRequests (SheetsServiceCall.deleteRows sheetId (p.sheetIdNum.getD 0) p.startIndex
        (p.count.getD 1)) =
      [ApiRequest.deleteDimension (p.sheetIdNum.getD 0) Dimension.ROWS p.startIndex
        (p.startIndex + (p.count.getD 1 : Int))] ∧
    (∀ (call : SheetsServiceCall) (req : ApiRequest), req ∈ callRequests call →
      isColumnDeletion req = false) := by
  refine ⟨rfl, rfl, rfl, ?_⟩
  intro call req hreq
  cases call <;> simp [callRequests] at hreq <;> subst hreq <;> rfl

/-- Witness for C3 at a concrete snapshot: undoing the insertion of three
columns at index `2` deletes rows `2`–`4`. -/
theorem insert_column_undo_deletes_rows_witness :
    performUndo (createSnapshot 0 "r1" "u1" "a1" "s1" "insert_column"
        { startIndex := 2, count := some 3, sheetIdNum := some 0 } none) =
      Except.ok [SheetsServiceCall.deleteRows "s1" 0 2 3] ∧
    isColumnDeletion (ApiRequest.deleteDimension 0 Dimension.ROWS 2 5) = false :=
  ⟨(insert_column_undo_deletes_rows 0 "r1" "u1" "a1" "s1"
      { startIndex := 2, count := some 3, sheetIdNum := some 0 } none).2.1,
   (insert_column_undo_deletes_rows 0 "r1" "u1" "a1" "s1"
      { startIndex := 2, count := some 3, sheetIdNum := some 0 } none).2.2.2
     (SheetsServiceCall.deleteRows "s1" 0 2 3)
     (ApiRequest.deleteDimension 0 Dimension.ROWS 2 5) (by simp [callRequests])⟩

/-- C5 counterexample: two request-path operations move conversations along
edges that are not in the transition table.  `handleError` (the execute
route's error path) forces `COMPLETED → ERROR`, and `resetToIdle` (the
reset endpoint) forces `TRANSCRIBING → IDLE`; neither edge is allowed by
the table. -/
theorem request_path_bypasses_transition_table :
    (handleError ⟨"c1", ConversationState.COMPLETED, 0⟩).state = ConversationState.ERROR ∧
    isValidTransition ConversationState.COMPLETED ConversationState.ERROR = false ∧
    (resetToIdle ⟨"c2", ConversationState.TRANSCRIBING, 0⟩).state = ConversationState.IDLE ∧
    isValidTransition ConversationState.TRANSCRIBING ConversationState.IDLE = false := by
  refine ⟨rfl, by decide, rfl, by decide⟩

/-- C5 amended: the state is one of the ten enumerated values by
construction, and `transitionState` only ever commits moves allowed by the
table (a successful transition implies table membership); but `handleError`
and `resetToIdle`, both reachable from the request path (the execute
route's error handling and the reset endpoint), write `ERROR` / `IDLE`
unconditionally, so the sequence of states a conversation visits need not
be a walk over the table. -/
theorem state_machine_walk_amended :
    (∀ (store : List Conversation) (conversationId : String) (s : ConversationState)
       (conv : Conversation) (r : TransitionResult) (store' : List Conversation),
       store.find? (fun c => c.id == conversationId) = some conv →
       transitionState store conversationId s = Except.ok (r, store') →
       r.success = true →
       isValidTransition conv.state s = true) ∧
    (∀ c : Conversation,
      (handleError c).state = ConversationState.ERROR ∧
      (resetToIdle c).state = ConversationState.IDLE) := by
  constructor
  · intro store conversationId s conv r store' hfind h hs
    simp only [transitionState, hfind] at h
    by_cases hv : isValidTransition conv.state s = true
    · exact hv
    · rw [if_neg hv] at h
      simp only [Except.ok.injEq, Prod.mk.injEq] at h
      rw [← h.1] at hs
      simp at hs
  · intro c
    exact ⟨rfl, rfl⟩

/-- Witness for C5 amended: a committed `IDLE → LISTENING` transition is in
the table. -/
theorem state_machine_walk_amended_witness :
    isValidTransition ConversationState.IDLE ConversationState.LISTENING = true :=
  state_machine_walk_amended.1 [⟨"c1", ConversationState.IDLE, 0⟩] "c1"
    ConversationState.LISTENING ⟨"c1", ConversationState.IDLE, 0⟩
    { success := true, currentState := ConversationState.LISTENING }
    [⟨"c1", ConversationState.LISTENING, 0⟩] rfl rfl rfl

/-- After marking the record with the given id executed, the `executeUndo`
lookup (same id, same owner, not executed) can no longer succeed. -/
theorem find_none_after_mark (store : List RollbackRecord) (userId rollbackId : String) :
    (store.map (fun r => if r.id == rollbackId then { r with executed := true } else r)).find?
      (undoLookup userId rollbackId) = none := by
  induction store with
  | nil => rfl
  | cons x xs ih =>
    by_cases hx : (x.id == rollbackId) = true
    · have h1 : (if x.id == rollbackId then { x with executed := true } else x) =
          { x with executed := true } := if_pos hx
      simp only [List.map_cons, h1]
      rw [List.find?_cons_of_neg, ih]
      simp [undoLookup]
    · have hx' : (x.id == rollbackId) = false := by simpa using hx
      have h1 : (if x.id == rollbackId then { x with executed := true } else x) = x :=
        if_neg (by simp [hx'])
      simp only [List.map_cons, h1]
      rw [List.find?_cons_of_neg, ih]
      simp [undoLookup, hx']

/-- C8: `executeUndo` fails with the not-found/already-executed error when
no un-executed record owned by the user matches the id; fails with the
expiry error when called after `expiresAt`; and only otherwise dispatches
the undo handler — marking the record executed on success, after which a
second call (at any later time, even before expiry) fails with the
not-found/already-executed error. -/
theorem executeUndo_characterization (now : Nat) (store : List RollbackRecord)
    (userId rollbackId : String) :
    (store.find? (undoLookup userId rollbackId) = none →
      executeUndo now store userId rollbackId =
        Except.error "Undo failed: Rollback action not found or already executed") ∧
    (∀ rollback, store.find? (undoLookup userId rollbackId) = some rollback →
      rollback.expiresAt < now →
      executeUndo now store userId rollbackId =
        Except.error ("Undo failed: Undo window expired. Actions can only be undone within " ++
          toString ROLLBACK_WINDOW_HOURS ++ " hours")) ∧
    (∀ rollback calls, store.find? (undoLookup userId rollbackId) = some rollback →
      ¬ rollback.expiresAt < now →
      performUndo rollback = Except.ok calls →
      ∃ store', executeUndo now store userId rollbackId =
          Except.ok (store', calls, "Successfully undid action: " ++ rollback.undoAction) ∧
        (∀ r ∈ store', r.id = rollbackId → r.executed = true) ∧
        (∀ later : Nat, executeUndo later store' userId rollbackId =
          Except.error "Undo failed: Rollback action not found or already executed")) := by
  refine ⟨?_, ?_, ?_⟩
  · intro h
    simp [executeUndo, h]
  · intro rollback hf hexp
    simp [executeUndo, hf, hexp]
  · intro rollback calls hf hexp hperf
    refine ⟨store.map (fun r => if r.id == rollbackId then { r with executed := true } else r),
      ?_, ?_, ?_⟩
    · simp [executeUndo, hf, hexp, hperf]
    · intro r hr hid
      rcases List.mem_map.mp hr with ⟨x, hxmem, rfl⟩
      by_cases hxid : (x.id == rollbackId) = true
      · rw [if_pos hxid]
      · rw [if_neg (by simp [hxid])] at hid ⊢
        exact absurd (by simpa using hid) (by simpa using hxid)
    · intro later
      unfold executeUndo
      rw [find_none_after_mark]

/-- A concrete rollback record used to witness C8. -/
def sampleRollback : RollbackRecord :=
  { id := "r1"
    userId := "u1"
    actionId := "a1"
    sheetId := "s1"
    undoAction := "restore_cell"
    undoData := { range := some "A1", previousValues := [["x"]] }
    executed := false
    expiresAt := 24 }

/-- Witness for C8: calling `executeUndo` one hour after `expiresAt` fails
with the expiry error. -/
theorem executeUndo_characterization_witness :
    executeUndo 25 [sampleRollback] "u1" "r1" =
      Except.error
        "Undo failed: Undo window expired. Actions can only be undone within 24 hours" :=
  (executeUndo_characterization 25 [sampleRollback] "u1" "r1").2.1 sampleRollback rfl
    (by norm_num [sampleRollback])

/-- Modelled from the spec (§4.2 staleness policy): the sweep the
specification describes selects only conversations in a *non-terminal*,
non-idle state — the spec's terminal-for-a-turn states being `COMPLETED`
and `ERROR` — left alone for longer than the threshold. -/
def specStuckFilter (cutoff : Nat) (c : Conversation) : Bool :=
  !(c.state == ConversationState.IDLE) && !(c.state == ConversationState.COMPLETED) &&
    !(c.state == ConversationState.ERROR) && c.updatedAt < cutoff

/-- Modelled from the spec (§4.2 staleness policy): the claimed sweep,
force-transitioning exactly the `specStuckFilter` conversations to
`ERROR`. -/
def specCleanupStuckConversations (store : List Conversation) (now maxAgeMinutes : Nat) :
    List Conversation × Nat :=
  let cutoff := now - maxAgeMinutes
  ((store.map (fun c =>
      if specStuckFilter cutoff c then { c with state := ConversationState.ERROR } else c)),
   (store.filter (specStuckFilter cutoff)).length)

/-- C10 counterexample: a conversation already in the terminal state
`ERROR`, 31 minutes old, is matched and counted by the code's sweep
(`state notIn [IDLE, COMPLETED]` does not exclude `ERROR`), whereas the
claimed sweep of exactly the non-terminal, non-idle conversations would
leave it untouched and count zero. -/
theorem staleness_sweep_counts_error_conversations :
    (cleanupStuckConversations [⟨"c1", ConversationState.ERROR, 29⟩] 60 30).2 = 1 ∧
    (specCleanupStuckConversations [⟨"c1", ConversationState.ERROR, 29⟩] 60 30).2 = 0 := by
  decide

/-- C10 amended: the sweep force-transitions to `ERROR` exactly the
conversations whose state is neither `IDLE` nor `COMPLETED` (so
conversations already in `ERROR` are also matched and counted, their state
value unchanged) and whose `updatedAt` is older than `now` minus the age
threshold; in particular a conversation stuck in `EXECUTING` for 31
minutes is swept to `ERROR`, while one in `COMPLETED` for the same
duration is left untouched. -/
theorem staleness_sweep_characterization :
    (∀ (store : List Conversation) (now maxAgeMinutes : Nat) (c : Conversation),
      c ∈ store →
      (c.state ≠ ConversationState.IDLE ∧ c.state ≠ ConversationState.COMPLETED ∧
          c.updatedAt < now - maxAgeMinutes →
        { c with state := ConversationState.ERROR } ∈
          (cleanupStuckConversations store now maxAgeMinutes).1) ∧
      (¬(c.state ≠ ConversationState.IDLE ∧ c.state ≠ ConversationState.COMPLETED ∧
          c.updatedAt < now - maxAgeMinutes) →
        c ∈ (cleanupStuckConversations store now maxAgeMinutes).1)) ∧
    (cleanupStuckConversations [⟨"d1", ConversationState.EXECUTING, 29⟩] 60 30).1 =
      [⟨"d1", ConversationState.ERROR, 29⟩] ∧
    (cleanupStuckConversations [⟨"d2", ConversationState.COMPLETED, 29⟩] 60 30).1 =
      [⟨"d2", ConversationState.COMPLETED, 29⟩] ∧
    (cleanupStuckConversations [⟨"d3", ConversationState.ERROR, 29⟩] 60 30) =
      ([⟨"d3", ConversationState.ERROR, 29⟩], 1) := by
  refine ⟨?_, by decide, by decide, by decide⟩
  intro store now maxAgeMinutes c hc
  constructor
  · intro h
    have hf : stuckFilter (now - maxAgeMinutes) c = true := by
      simp only [stuckFilter, Bool.and_eq_true, Bool.not_eq_true', beq_eq_false_iff_ne,
        decide_eq_true_eq]
      exact ⟨⟨h.1, h.2.1⟩, h.2.2⟩
    have hmap := List.mem_map_of_mem
      (fun x => if stuckFilter (now - maxAgeMinutes) x then
        { x with state := ConversationState.ERROR } else x) hc
    simp only [] at hmap
    rw [if_pos hf] at hmap
    exact hmap
  · intro h
    have hf : stuckFilter (now - maxAgeMinutes) c = false := by
      cases hsf : stuckFilter (now - maxAgeMinutes) c
      · rfl
      · exfalso
        apply h
        simp only [stuckFilter, Bool.and_eq_true, Bool.not_eq_true', beq_eq_false_iff_ne,
          decide_eq_true_eq] at hsf
        exact ⟨hsf.1.1, hsf.1.2, hsf.2⟩
    have hmap := List.mem_map_of_mem
      (fun x => if stuckFilter (now - maxAgeMinutes) x then
        { x with state := ConversationState.ERROR } else x) hc
    simp only [] at hmap
    rw [if_neg (by simp [hf])] at hmap
    exact hmap

/-- Witness for C10 amended: the `EXECUTING` conversation, 31 minutes old,
appears in `ERROR` in the swept store. -/
theorem staleness_sweep_characterization_witness :
    (⟨"d1", ConversationState.ERROR, 29⟩ : Conversation) ∈
      (cleanupStuckConversations [⟨"d1", ConversationState.EXECUTING, 29⟩] 60 30).1 :=
  (staleness_sweep_characterization.1 [⟨"d1", ConversationState.EXECUTING, 29⟩] 60 30
    ⟨"d1", ConversationState.EXECUTING, 29⟩ (by decide)).1 (by decide)

end VoiceSheets
